import Mathlib

/-!
Verification of `auto_blog_poster.py` (fintrend/fintrend-auto).

Shallow embedding: every external effect of the script (HTTP requests,
yfinance price histories, the OpenAI client, file writes, the wall clock)
is an oracle stored in an `Env` record; each embedded function returns its
Python return value together with the list of events it emits (log lines,
network requests, file writes), and a function that can raise a Python
exception returns `Except String` of its value.  Machine floats are
modelled as rationals; the timestamp strings produced by `datetime.now`
are oracle fields of `Env` because they are reads of the wall clock.
-/

namespace AutoBlogPoster

/-- JSON values as returned by `response.json()`. -/
inductive JValue where
  | jnull
  | jbool (b : Bool)
  | jnum (q : ℚ)
  | jstr (s : String)
  | jarr (xs : List JValue)
  | jobj (fields : List (String × JValue))

/-- Python truthiness (`bool(x)`) for a JSON value. -/
def pyFalsy : JValue → Bool
  | .jnull => true
  | .jbool b => !b
  | .jnum q => q == 0
  | .jstr s => s == ""
  | .jarr xs => xs.isEmpty
  | .jobj fs => fs.isEmpty

/-- Truthiness of `dict.get`-style results (`None` when the key is absent). -/
def pyTruthyO : Option JValue → Bool
  | none => false
  | some j => !pyFalsy j

/-- `d.get(k)` on a JSON object: first binding of the key, `None` if absent. -/
def jget (j : JValue) (key : String) : Option JValue :=
  match j with
  | .jobj fs => (fs.find? (fun p => p.1 == key)).map Prod.snd
  | _ => none

/-- Characters stripped by Python `str.strip()` (the whitespace actually
reachable in this program plus the common Unicode spaces). -/
def isPySpace (c : Char) : Bool :=
  c = ' ' || c = '\t' || c = '\n' || c = '\r' ||
  c = Char.ofNat 11 || c = Char.ofNat 12 || c = Char.ofNat 160 ||
  c = Char.ofNat 0x3000

/-- `str.strip()` on a character list. -/
def pyStripL (l : List Char) : List Char :=
  ((l.dropWhile isPySpace).reverse.dropWhile isPySpace).reverse

/-- `str.strip()`. -/
def pyStripStr (s : String) : String :=
  String.mk (pyStripL s.data)

/-- `str.rstrip("/")`, applied to `WP_BASE_URL` at module load. -/
def pyRstripSlash (s : String) : String :=
  String.mk ((s.data.reverse.dropWhile (fun c => c = '/')).reverse)

/-- Python `str()` of a decoded JSON value, as used in f-string interpolation.
Container reprs are abbreviated: no claim depends on them. -/
def pyShowJ : JValue → String
  | .jnull => "None"
  | .jbool b => if b then "True" else "False"
  | .jstr s => s
  | .jnum q => if q.den = 1 then toString q.num else toString q
  | .jarr _ => "[...]"
  | .jobj _ => "{...}"

/-- Floor of a rational, executable down to the kernel. -/
def ratFloor (q : ℚ) : ℤ := q.num.fdiv q.den

/-- `round(x, 2)` of the script, on the rational model of the float. -/
def round2 (q : ℚ) : ℚ := (ratFloor (q * 100 + 1 / 2) : ℚ) / 100

/-- Rendering of a Python float in an f-string, exact on the two-decimal
values produced by `round2`. -/
def pyShowFloat (q : ℚ) : String :=
  let sign := if q < 0 then "-" else ""
  let a : ℚ := |q|
  let ip : ℤ := ⌊a⌋
  let fr : ℚ := a - ip
  if fr = 0 then sign ++ toString ip ++ ".0"
  else
    let h : ℚ := fr * 100
    if h.den = 1 then
      let n : ℤ := h.num
      if n % 10 = 0 then sign ++ toString ip ++ "." ++ toString (n / 10)
      else if n < 10 then sign ++ toString ip ++ ".0" ++ toString n
      else sign ++ toString ip ++ "." ++ toString n
    else sign ++ toString ip ++ "." ++ toString fr.num ++ "/" ++ toString fr.den

/-- f-string rendering of a price value that may be Python `None`. -/
def pyShowOpt : Option ℚ → String
  | none => "None"
  | some q => pyShowFloat q

/-- `f"{s: <w}"`: left-justify a string in `w` characters. -/
def padTo (w : Nat) (s : String) : String :=
  s ++ String.mk (List.replicate (w - s.length) ' ')

/-- `int(x)` on a decoded JSON value; `Except` marks the raising cases. -/
def pyInt : JValue → Except String Int
  | .jnum q => .ok (Int.tdiv q.num q.den)
  | .jbool b => .ok (if b then 1 else 0)
  | .jstr s =>
      let t := pyStripL s.data
      let core := if t ≠ [] ∧ (t.head? = some '-' ∨ t.head? = some '+') then t.tail else t
      if core ≠ [] ∧ core.all Char.isDigit then
        let mag : Int := core.foldl (fun acc c => acc * 10 + (c.toNat - 48)) 0
        .ok (if t.head? = some '-' then -mag else mag)
      else .error "ValueError: invalid literal for int()"
  | _ => .error "TypeError: int() argument"

/-- Events emitted by a run: log lines and external calls. -/
inductive Ev where
  | log (msg : String)
  | yf (ticker : String)
  | get (url : String)
  | post (url : String)
  | chat
  | image
  | fwrite (path : String)
deriving DecidableEq

/-- The log-file projection of a trace. -/
def logsOf (evs : List Ev) : List String :=
  evs.filterMap (fun e => match e with | .log m => some m | _ => none)

/-- True of events that issue a network request. -/
def isNetEv : Ev → Bool
  | .yf _ => true
  | .get _ => true
  | .post _ => true
  | .chat => true
  | .image => true
  | _ => false

/-- Outcome of one `requests` call: a transport exception, or a status code
together with the parsed JSON body (`none` when `.json()` would raise). -/
abbrev HResp := Except String (Nat × Option JValue)

/-- All external inputs of one run: configuration, clock readings, and one
oracle per external call site. -/
structure Env where
  wpBaseUrlRaw : String
  wpApiEndpoint : String
  wpUsername : String
  wpAppPassword : String
  wpCategoryId : String
  postStatus : String
  wpTagsRaw : String
  finnhubKey : String
  slugPre : String
  clientPresent : Bool
  cwd : String
  mainDate : String
  slugStamp : String
  fbDate : String
  dashStamp : String
  imgStampA : String
  imgStampB : String
  newsFrom : String
  newsTo : String
  priceHist : String → Except String (List ℚ)
  newsResp : String → HResp
  chatResp : Except String String
  imageResp : Except String (Option String)
  imgWrite : Except String Unit
  renderResult : Except String Unit
  tagSearch : String → HResp
  tagCreate : String → HResp
  mediaOpen : Except String Unit
  mediaResp : HResp
  dupResp : HResp
  postResp : HResp

/-- `WP_BASE_URL = os.getenv("WP_BASE_URL","").rstrip("/")`. -/
def wpBase (env : Env) : String := pyRstripSlash env.wpBaseUrlRaw

def wpPostsUrl (env : Env) : String := wpBase env ++ env.wpApiEndpoint

def wpMediaUrl (env : Env) : String := wpBase env ++ "/wp-json/wp/v2/media"

def wpTagsUrl (env : Env) : String := wpBase env ++ "/wp-json/wp/v2/tags"

/-- `os.path.join(os.getcwd(), name)`. -/
def pathJoin (dir name : String) : String := dir ++ "/" ++ name

/-- `http_json`: GET a URL, return the parsed body on 200, else log and
return `None`; never raises. -/
def http_json (url : String) (r : HResp) : Option JValue × List Ev :=
  match r with
  | .error e => (none, [.get url, .log ("http_json例外: " ++ url ++ " | " ++ e)])
  | .ok (st, body) =>
    if st = 200 then
      match body with
      | some j => (some j, [.get url])
      | none => (none, [.get url, .log ("http_json例外: " ++ url ++ " | JSONDecodeError")])
    else (none, [.get url, .log ("http_json 失敗: " ++ url ++ " [" ++ toString st ++ "]")])

/-- `price_of`: latest daily close rounded to 2 decimals; `None` on an empty
history or any exception, which is logged; never raises. -/
def price_of (ticker : String) (env : Env) : Option ℚ × List Ev :=
  match env.priceHist ticker with
  | .error e => (none, [.yf ticker, .log ("yfinance 価格取得失敗: " ++ ticker ++ " | " ++ e)])
  | .ok [] => (none, [.yf ticker])
  | .ok (a :: as) => (some (round2 (as.getLastD a)), [.yf ticker])

/-- The value `price_of` computes, without the trace. -/
def priceVal (env : Env) (ticker : String) : Option ℚ :=
  match env.priceHist ticker with
  | .error _ => none
  | .ok [] => none
  | .ok (a :: as) => some (round2 (as.getLastD a))

/-- Fetch a list of (label, ticker) pairs one by one, as the dict
comprehensions of `market_dashboard` and `m7_prices` do. -/
def fetchAll (env : Env) : List (String × String) → List (String × Option ℚ) × List Ev
  | [] => ([], [])
  | (k, t) :: rest =>
      let (v, ev1) := price_of t env
      let (out, ev2) := fetchAll env rest
      ((k, v) :: out, ev1 ++ ev2)

/-- The fixed macro-indicator list of `market_dashboard`. -/
def dashPairs : List (String × String) :=
  [("VIX", "^VIX"), ("ドルインデックス", "DX-Y.NYB"), ("WTI原油", "CL=F"),
   ("金先物", "GC=F"), ("米10年債利回り(%)", "^TNX")]

/-- The fixed Magnificent-7 ticker list of `m7_prices`. -/
def m7Names : List String :=
  ["AAPL", "MSFT", "NVDA", "AMZN", "META", "GOOGL", "TSLA"]

def market_dashboard (env : Env) : List (String × Option ℚ) × List Ev :=
  fetchAll env dashPairs

def m7_prices (env : Env) : List (String × Option ℚ) × List Ev :=
  fetchAll env (m7Names.map (fun t => (t, t)))

/-- The Finnhub company-news URL built in `finnhub_company_news`. -/
def newsUrl (env : Env) (ticker : String) : String :=
  "https://finnhub.io/api/v1/company-news?symbol=" ++ ticker ++ "&from=" ++
    env.newsFrom ++ "&to=" ++ env.newsTo ++ "&token=" ++ env.finnhubKey

/-- `finnhub_company_news`: skip entirely without a key; swallow every
provider failure, error payload, and non-list payload into `[]`; otherwise
return at most the first two items. -/
def finnhub_company_news (ticker : String) (env : Env) : List JValue × List Ev :=
  if env.finnhubKey = "" then ([], [])
  else
    let (js, evs) := http_json (newsUrl env ticker) (env.newsResp ticker)
    match js with
    | none => ([], evs)
    | some j =>
      if pyFalsy j || (match j with | .jobj _ => pyTruthyO (jget j "error") | _ => false) then
        ([], evs)
      else
        match j with
        | .jarr xs => (xs.take 2, evs)
        | _ => ([], evs)

/-- One context-news line `"  - {ttl} ({url})"`; `Except` marks the raising
cases of `n.get("headline","").strip()` on a malformed item. -/
def newsLine (n : JValue) : Except String String :=
  match n with
  | .jobj _ =>
    let ttlE : Except String String :=
      match jget n "headline" with
      | none => .ok ""
      | some (.jstr s) => .ok (pyStripStr s)
      | some _ => .error "AttributeError: object has no attribute strip"
    match ttlE with
    | .error e => .error e
    | .ok ttl =>
      let url := match jget n "url" with
                 | none => ""
                 | some v => pyShowJ v
      .ok ("  - " ++ ttl ++ " (" ++ url ++ ")")
  | _ => .error "AttributeError: object has no attribute get"

def newsLines : List JValue → Except String (List String)
  | [] => .ok []
  | n :: ns =>
    match newsLine n with
    | .error e => .error e
    | .ok l =>
      match newsLines ns with
      | .error e => .error e
      | .ok ls => .ok (l :: ls)

/-- Ticker order of the news loop inside `build_context_text`. -/
def ctxNewsTickers : List String :=
  ["AAPL", "NVDA", "TSLA", "MSFT", "META", "GOOGL", "AMZN"]

/-- The news section of the context: fetch per ticker in order, stopping at
the first raising item, exactly as the Python loop does. -/
def ctxNewsLoop (env : Env) : List String → Except String (List String) × List Ev
  | [] => (.ok [], [])
  | t :: ts =>
    let ns := (finnhub_company_news t env).1
    let ev1 := (finnhub_company_news t env).2
    let blockE : Except String (List String) :=
      if ns.isEmpty then .ok []
      else
        match newsLines ns with
        | .error e => .error e
        | .ok ls => .ok (("- " ++ t ++ ":") :: ls)
    match blockE with
    | .error e => (.error e, ev1)
    | .ok b =>
      (match (ctxNewsLoop env ts).1 with
       | .error e => .error e
       | .ok r => .ok (b ++ r), ev1 ++ (ctxNewsLoop env ts).2)

/-- The `"- {k}: {v}"` entry of the context block. -/
def dashLine (p : String × Option ℚ) : String :=
  "- " ++ p.1 ++ ": " ++ pyShowOpt p.2

/-- The `parts` list assembled by `build_context_text`. -/
def build_context_parts (env : Env) : Except String (List String) × List Ev :=
  (match (ctxNewsLoop env ctxNewsTickers).1 with
   | .error e => .error e
   | .ok nb =>
       .ok (["【主要指標】"] ++ (market_dashboard env).1.map dashLine ++
            ["\n【マグニフィセントセブン】"] ++
            (m7_prices env).1.map dashLine ++
            ["\n【社名ベースの話題銘柄ニュース】"] ++ nb),
   (market_dashboard env).2 ++ (m7_prices env).2 ++ (ctxNewsLoop env ctxNewsTickers).2)

/-- `build_context_text`: the parts joined with newlines. -/
def build_context_text (env : Env) : Except String String × List Ev :=
  (match (build_context_parts env).1 with
   | .error e => .error e
   | .ok l => .ok (String.intercalate "\n" l),
   (build_context_parts env).2)

/-- `long_article_by_openai`: `None` without a client; one chat call whose
exception is logged and swallowed; otherwise the stripped content. -/
def long_article_by_openai (env : Env) : Option String × List Ev :=
  if env.clientPresent then
    match env.chatResp with
    | .error e => (none, [.chat, .log ("OpenAI本文生成 失敗: " ++ e)])
    | .ok s => (some (pyStripStr s), [.chat])
  else (none, [])

def isIndentChar (c : Char) : Bool := c = ' ' || c = '\t'

/-- `text.split("\n")` on characters. -/
def splitNL : List Char → List (List Char)
  | [] => [[]]
  | c :: cs =>
    let r := splitNL cs
    if c = '\n' then [] :: r
    else
      match r with
      | [] => [[c]]
      | l :: ls => (c :: l) :: ls

/-- `"\n".join` on character lines. -/
def joinNL : List (List Char) → List Char
  | [] => []
  | [l] => l
  | l :: l2 :: ls => l ++ '\n' :: joinNL (l2 :: ls)

def commonPre : List Char → List Char → List Char
  | x :: xs, y :: ys => if x = y then x :: commonPre xs ys else []
  | _, _ => []

/-- First step of `textwrap.dedent`: lines consisting solely of
whitespace are normalized to empty lines. -/
def normLines (ls : List (List Char)) : List (List Char) :=
  ls.map (fun l => if !l.isEmpty && l.all isIndentChar then ([] : List Char) else l)

/-- The common space/tab margin `textwrap.dedent` computes over the
non-empty lines. -/
def marginOf (ls : List (List Char)) : List Char :=
  match (ls.filter (fun l => !l.isEmpty)).map (fun l => l.takeWhile isIndentChar) with
  | [] => []
  | i :: is => is.foldl commonPre i

/-- Margin removal: a line is shortened only where the margin matches. -/
def dropMargin (m l : List Char) : List Char :=
  if l.take m.length = m then l.drop m.length else l

/-- `textwrap.dedent` on a line list. -/
def dedentLines (ls : List (List Char)) : List (List Char) :=
  let n := normLines ls
  let m := marginOf n
  if m = [] then n else n.map (dropMargin m)

def pyDedentStr (s : String) : String :=
  String.mk (joinNL (dedentLines (splitNL s.data)))

def tmplPre : String := "\n    1. 本日の市場サマリー（"

def tmplMid : String := "）\n    本レポートでは、米国株式・為替・コモディティ・債券を横断して俯瞰します。主要指標の動き・ニュースの背景を整理し、投資家が押さえるべき観点を解説します。\n\n    2. 主要指標の現状\n    "

def tmplPost : String := "\n\n    3. 安全資産の位置づけ\n    市場の不確実性が高まる局面では、金や良質な債券、インデックス型の投資信託が相対的に堅調となる傾向があります。VIXが上昇する場合はボラティリティ・リスクが高まるため、分散とキャッシュ余力を重視した運用が有効です。\n\n    4. 金利・ドルインデックスの示唆\n    米10年債利回りの変動は株式の割引率を通じてバリュエーションに影響します。ドルインデックスはコモディティ価格の逆風/追い風となり、WTI原油や金のトレンドに波及する点にも留意が必要です。\n\n    5. マグニフィセントセブンの動向\n    高い収益性とAI/クラウド等の成長領域を背景に、依然として指数寄与度が高いセクターです。ただしイベント・決算期には変動率が上がるため、リスク管理を徹底したいところです。\n\n    6. 投資家にとっての実務的ポイント\n    - ボラティリティ上昇下では、ポジションサイズ調整・ディフェンシブ資産の組み込み・ヘッジ手段の検討が有用\n    - 長期投資の軸は分散・低コスト・規律を基本に\n    - テーマ投資は中核資産と衛星資産を明確に分離し、想定外の変動に備える\n\n    7. まとめ\n    本日の材料を踏まえ、過度な強気/弱気に振れず、データに基づく判断を積み重ねることが重要です。\n    "

/-- The f-string literal inside `long_article_fallback`, with the run date
and the context block interpolated. -/
def fallbackTemplate (today ctx : String) : String :=
  tmplPre ++ today ++ tmplMid ++ ctx ++ tmplPost

/-- `long_article_fallback`: `textwrap.dedent(f-string).strip()`. -/
def long_article_fallback (today ctx : String) : String :=
  pyStripStr (pyDedentStr (fallbackTemplate today ctx))

/-- `build_article`: context, then the generative attempt, falling back on
`None` or empty text. -/
def build_article (env : Env) : Except String String × List Ev :=
  match (build_context_text env).1 with
  | .error e => (.error e, (build_context_text env).2)
  | .ok ctx =>
    (.ok (match (long_article_by_openai env).1 with
          | some s => if s ≠ "" then s else long_article_fallback env.fbDate ctx
          | none => long_article_fallback env.fbDate ctx),
     (build_context_text env).2 ++ (long_article_by_openai env).2)

/-- `generate_feature_image`: the generative attempt with every failure
logged and swallowed, then the Matplotlib dashboard render, which is NOT
guarded: a raising render propagates as `.error`. -/
def generate_feature_image (env : Env) : Except String String × List Ev :=
  let (attempt, ev0) :=
    if env.clientPresent then
      match env.imageResp with
      | .error e => ((none : Option String), [Ev.image, Ev.log ("OpenAI画像 失敗: " ++ e)])
      | .ok none => (none, [Ev.image])
      | .ok (some _) =>
        let out := pathJoin env.cwd ("feature_" ++ env.imgStampA ++ ".png")
        match env.imgWrite with
        | .error e => (none, [Ev.image, Ev.fwrite out, Ev.log ("OpenAI画像 失敗: " ++ e)])
        | .ok _ => (some out, [Ev.image, Ev.fwrite out])
    else (none, [])
  match attempt with
  | some out => (.ok out, ev0)
  | none =>
    let (_, ev1) := market_dashboard env
    let (_, ev2) := m7_prices env
    let out := pathJoin env.cwd ("feature_" ++ env.imgStampB ++ ".png")
    match env.renderResult with
    | .error e => (.error e, ev0 ++ ev1 ++ ev2)
    | .ok _ => (.ok out, ev0 ++ ev1 ++ ev2 ++ [Ev.fwrite out])

/-- The text lines drawn on the Matplotlib fallback canvas of
`generate_feature_image`: timestamp, section headers, and one
`"label{pad}: value"` line per instrument. -/
def dashboardImageLines (env : Env) : List String :=
  let dash := (market_dashboard env).1
  let m7 := (m7_prices env).1
  [env.dashStamp, "■ 主要指標"] ++
    dash.map (fun p => padTo 12 p.1 ++ ": " ++ pyShowOpt p.2) ++
    ["■ Magnificent 7"] ++
    m7.map (fun p => padTo 5 p.1 ++ ": " ++ pyShowOpt p.2)

/-- Tag-creation attempt inside `wp_tag_id_by_name` (the `r2` block). -/
def tagCreateStep (name : String) (env : Env) (evG : List Ev) : Option Int × List Ev :=
  let evs := evG ++ [Ev.post (wpTagsUrl env)]
  match env.tagCreate name with
  | .error e => (none, evs ++ [.log ("タグID取得/作成 例外: " ++ e)])
  | .ok (st2, b2) =>
    if st2 = 200 ∨ st2 = 201 then
      match b2 with
      | none => (none, evs ++ [.log ("タグID取得/作成 例外: JSONDecodeError")])
      | some j2 =>
        match jget j2 "id" with
        | some v =>
          match pyInt v with
          | .error e => (none, evs ++ [.log ("タグID取得/作成 例外: " ++ e)])
          | .ok i => (some i, evs)
        | none => (none, evs ++ [.log ("タグID取得/作成 例外: KeyError")])
    else (none, evs ++ [.log ("タグ作成失敗: " ++ name ++ " [" ++ toString st2 ++ "]")])

/-- `wp_tag_id_by_name`: search, then create on miss; every exception is
caught, logged, and becomes `None`. -/
def wp_tag_id_by_name (name : String) (env : Env) : Option Int × List Ev :=
  let evG := [Ev.get (wpTagsUrl env)]
  match env.tagSearch name with
  | .error e => (none, evG ++ [.log ("タグID取得/作成 例外: " ++ e)])
  | .ok (st, body) =>
    if st = 200 then
      match body with
      | none => (none, evG ++ [.log ("タグID取得/作成 例外: JSONDecodeError")])
      | some j =>
        match j with
        | .jarr (x :: _) =>
          match x with
          | .jobj _ =>
            (match jget x "id" with
             | none => (none, evG ++ [.log ("タグID取得/作成 例外: KeyError")])
             | some v =>
               match pyInt v with
               | .error e => (none, evG ++ [.log ("タグID取得/作成 例外: " ++ e)])
               | .ok i => (some i, evG))
          | _ => (none, evG ++ [.log ("タグID取得/作成 例外: TypeError")])
        | _ => tagCreateStep name env evG
    else tagCreateStep name env evG

/-- `upload_media`: open the file, POST it, parse the id; every failure is
caught, logged, and becomes `None`. -/
def upload_media (_filepath : String) (env : Env) : Option Int × List Ev :=
  match env.mediaOpen with
  | .error e => (none, [.log ("WP 画像アップ例外: " ++ e)])
  | .ok _ =>
    let evs := [Ev.post (wpMediaUrl env)]
    match env.mediaResp with
    | .error e => (none, evs ++ [.log ("WP 画像アップ例外: " ++ e)])
    | .ok (st, body) =>
      if st = 200 ∨ st = 201 then
        match body with
        | none => (none, evs ++ [.log ("WP 画像アップ例外: JSONDecodeError")])
        | some j =>
          match jget j "id" with
          | none => (none, evs ++ [.log ("WP 画像アップ例外: TypeError")])
          | some v =>
            match pyInt v with
            | .error e => (none, evs ++ [.log ("WP 画像アップ例外: " ++ e)])
            | .ok mid => (some mid, evs ++ [.log ("WP 画像アップ成功: id=" ++ toString mid)])
      else (none, evs ++ [.log ("WP 画像アップ失敗: [" ++ toString st ++ "]")])

/-- `post_exists`: true only on a 200 response whose body is a non-empty
JSON list; every failure of the check yields `False`. -/
def post_exists (_slug : String) (env : Env) : Bool × List Ev :=
  let evs := [Ev.get (wpPostsUrl env)]
  match env.dupResp with
  | .error e => (false, evs ++ [.log ("既存チェック例外: " ++ e)])
  | .ok (st, body) =>
    if st = 200 then
      match body with
      | none => (false, evs ++ [.log ("既存チェック例外: JSONDecodeError")])
      | some j =>
        match j with
        | .jarr xs => (!xs.isEmpty, evs)
        | _ => (false, evs)
    else (false, evs)

/-- `post_to_wp`: one creation POST; on 200/201 extract the link (or the
guid fallback) and log success, else log and return `None`. -/
def post_to_wp (env : Env) : Option JValue × List Ev :=
  let evs := [Ev.post (wpPostsUrl env)]
  match env.postResp with
  | .error e => (none, evs ++ [.log ("投稿例外: " ++ e)])
  | .ok (st, body) =>
    if st = 200 ∨ st = 201 then
      match body with
      | none => (none, evs ++ [.log ("投稿例外: JSONDecodeError")])
      | some j =>
        match j with
        | .jobj _ =>
          let linkV := jget j "link"
          if pyTruthyO linkV then
            (linkV, evs ++ [.log ("投稿成功: " ++ pyShowJ (linkV.getD .jnull))])
          else
            (match jget j "guid" with
             | none => (some (.jstr ""), evs ++ [.log "投稿成功: "])
             | some g =>
               match g with
               | .jobj _ =>
                 let rv := (jget g "rendered").getD (.jstr "")
                 (some rv, evs ++ [.log ("投稿成功: " ++ pyShowJ rv)])
               | _ => (none, evs ++ [.log ("投稿例外: AttributeError")]))
        | _ => (none, evs ++ [.log ("投稿例外: AttributeError")])
    else (none, evs ++ [.log ("投稿失敗: [" ++ toString st ++ "]")])

/-- `[s.strip() for s in WP_TAGS_RAW.split(",") if s.strip()]`. -/
def parseTags (raw : String) : List String :=
  ((raw.splitOn ",").map pyStripStr).filter (fun s => s ≠ "")

/-- The tag-resolution loop of `main`; a tag id is appended only when
truthy (non-`None` and non-zero). -/
def tagLoop (env : Env) : List String → List Int × List Ev
  | [] => ([], [])
  | nm :: rest =>
    let (tid, ev1) := wp_tag_id_by_name nm env
    let (ids, ev2) := tagLoop env rest
    (match tid with
     | some i => if i ≠ 0 then i :: ids else ids
     | none => ids,
     ev1 ++ ev2)

def startMsg : String := "=== 自動投稿タスク開始 ==="

def missMsg : String := "WP 設定不足。WP_BASE_URL, WP_USERNAME, WP_APP_PASSWORD を確認してください。"

def dupMsg : String := "同スラッグ記事がすでに存在します。終了。"

def composeMsg : String := "本文生成 フェーズ開始"

def endMsg : String := "=== 自動投稿タスク終了 ==="

def slugOf (env : Env) : String := env.slugPre ++ "-" ++ env.slugStamp

/-- `main`: credential gate, duplicate check, compose, tags, image, upload,
post.  An exception escaping `build_article` or `generate_feature_image`
propagates and aborts the run. -/
def main (env : Env) : Except String Unit × List Ev :=
  let ev0 := [Ev.log startMsg]
  if wpBase env = "" ∨ env.wpUsername = "" ∨ env.wpAppPassword = "" then
    (.ok (), ev0 ++ [Ev.log missMsg])
  else
    let (dup, ev1) := post_exists (slugOf env) env
    if dup then (.ok (), ev0 ++ ev1 ++ [Ev.log dupMsg])
    else
      let ev2 := [Ev.log composeMsg]
      match build_article env with
      | (.error e, ev3) => (.error e, ev0 ++ ev1 ++ ev2 ++ ev3)
      | (.ok _, ev3) =>
        let (_, ev4) :=
          if env.wpTagsRaw = "" then (([] : List Int), ([] : List Ev))
          else tagLoop env (parseTags env.wpTagsRaw)
        match generate_feature_image env with
        | (.error e, ev5) => (.error e, ev0 ++ ev1 ++ ev2 ++ ev3 ++ ev4 ++ ev5)
        | (.ok imgPath, ev5) =>
          let (_, ev6) := if imgPath ≠ "" then upload_media imgPath env else (none, [])
          let (urlV, ev7) := post_to_wp env
          let ev8 :=
            if pyTruthyO urlV then [Ev.log ("完了: " ++ pyShowJ (urlV.getD .jnull))] else []
          (.ok (), ev0 ++ ev1 ++ ev2 ++ ev3 ++ ev4 ++ ev5 ++ ev6 ++ ev7 ++ ev8 ++ [Ev.log endMsg])

/-- A concrete environment used to instantiate theorems: CMS credentials
present, no news or OpenAI key, all providers healthy. -/
def envBase : Env where
  wpBaseUrlRaw := "https://example.com/"
  wpApiEndpoint := "/wp-json/wp/v2/posts"
  wpUsername := "u"
  wpAppPassword := "p"
  wpCategoryId := "1"
  postStatus := "publish"
  wpTagsRaw := "米国株,仮想通貨,VIX,WTI"
  finnhubKey := ""
  slugPre := "market-report"
  clientPresent := false
  cwd := "/srv/app"
  mainDate := "2025年10月12日"
  slugStamp := "20251012-0900"
  fbDate := "2025年10月12日"
  dashStamp := "2025-10-12 09:00 JST"
  imgStampA := "20251012_090001"
  imgStampB := "20251012_090002"
  newsFrom := "2025-10-08"
  newsTo := "2025-10-12"
  priceHist := fun _ => .ok [(101 : ℚ)/2]
  newsResp := fun _ => .ok (200, some (.jarr []))
  chatResp := .error "no client"
  imageResp := .error "no client"
  imgWrite := .ok ()
  renderResult := .ok ()
  tagSearch := fun _ => .ok (200, some (.jarr [.jobj [("id", .jnum 7)]]))
  tagCreate := fun _ => .ok (201, some (.jobj [("id", .jnum 9)]))
  mediaOpen := .ok ()
  mediaResp := .ok (201, some (.jobj [("id", .jnum 33)]))
  dupResp := .ok (200, some (.jarr []))
  postResp := .ok (201, some (.jobj [("link", .jstr "https://example.com/post/1")]))

lemma price_of_fst (t : String) (env : Env) : (price_of t env).1 = priceVal env t := by
  unfold price_of priceVal
  cases h : env.priceHist t with
  | error e => rfl
  | ok l => cases l <;> rfl

lemma fetchAll_fst (env : Env) (ps : List (String × String)) :
    (fetchAll env ps).1 = ps.map (fun p => (p.1, priceVal env p.2)) := by
  induction ps with
  | nil => rfl
  | cons p rest ih =>
    obtain ⟨k, t⟩ := p
    simp [fetchAll, price_of_fst, ih]

/-- C5: for every set of external price histories, `market_dashboard` and
`m7_prices` return one entry per configured (label, ticker) pair in order;
a label is absent exactly when its own ticker's fetch raised or returned an
empty history, and otherwise carries the rounded latest close — so no
single ticker's failure affects any other label or aborts the batch. -/
theorem c5_price_failure_isolation (env : Env) :
    (market_dashboard env).1 = dashPairs.map (fun p => (p.1, priceVal env p.2)) ∧
    (m7_prices env).1 = m7Names.map (fun t => (t, priceVal env t)) ∧
    (∀ t, priceVal env t = none ↔
      (env.priceHist t = .ok [] ∨ ∃ e, env.priceHist t = .error e)) ∧
    (∀ t a as, env.priceHist t = .ok (a :: as) →
      priceVal env t = some (round2 (as.getLastD a))) := by
  refine ⟨fetchAll_fst env dashPairs, ?_, ?_, ?_⟩
  · rw [m7_prices, fetchAll_fst]
    simp
  · intro t
    unfold priceVal
    cases h : env.priceHist t with
    | error e => simp
    | ok l => cases l <;> simp
  · intro t a as h
    unfold priceVal
    rw [h]

/-- A concrete environment where exactly one macro ticker and one equity
ticker fail and every other one returns the history `[3, 7]`. -/
def envPartialFail : Env :=
  { envBase with
    priceHist := fun t => if t = "^VIX" ∨ t = "TSLA" then .error "boom" else .ok [3, 7] }

/-- Witness for C5: at `envPartialFail`, exactly the failing tickers are
absent and every other label carries the rounded last close. -/
theorem c5_price_failure_isolation_witness :
    (market_dashboard envPartialFail).1 =
      [("VIX", none), ("ドルインデックス", some (round2 7)), ("WTI原油", some (round2 7)),
       ("金先物", some (round2 7)), ("米10年債利回り(%)", some (round2 7))] ∧
    (m7_prices envPartialFail).1 =
      [("AAPL", some (round2 7)), ("MSFT", some (round2 7)), ("NVDA", some (round2 7)),
       ("AMZN", some (round2 7)), ("META", some (round2 7)), ("GOOGL", some (round2 7)),
       ("TSLA", none)] := by
  have h := c5_price_failure_isolation envPartialFail
  refine ⟨?_, ?_⟩
  · rw [h.1]
    simp [dashPairs, priceVal, envPartialFail]
  · rw [h.2.1]
    simp [m7Names, priceVal, envPartialFail]

/-- C4: `finnhub_company_news` returns at most 2 items; a missing
credential skips the call (empty result, no events), a transport error, a
non-200 status, and any non-list payload (which includes an error-object
payload) each yield the empty list; the missing-credential and the
provider-error cases return the same empty list. -/
theorem c4_news_digest_bounded (env : Env) (t : String) :
    ((finnhub_company_news t env).1).length ≤ 2 ∧
    (env.finnhubKey = "" → finnhub_company_news t env = ([], [])) ∧
    (∀ e, env.newsResp t = .error e → (finnhub_company_news t env).1 = []) ∧
    (∀ st body, env.newsResp t = .ok (st, body) → st ≠ 200 →
      (finnhub_company_news t env).1 = []) ∧
    (∀ j, env.newsResp t = .ok (200, some j) → (∀ xs, j ≠ .jarr xs) →
      (finnhub_company_news t env).1 = []) ∧
    (∀ env2 t2 e2, env.finnhubKey = "" → env2.newsResp t2 = .error e2 →
      (finnhub_company_news t env).1 = (finnhub_company_news t2 env2).1) := by
  have hlen : ((finnhub_company_news t env).1).length ≤ 2 := by
    unfold finnhub_company_news
    by_cases hk : env.finnhubKey = ""
    · simp [hk]
    · rcases hr : env.newsResp t with e | ⟨st, body⟩ <;>
        simp only [hk, if_false, http_json, hr]
      · simp
      · by_cases hst : st = 200
        · subst hst
          rcases body with _ | j
          · simp
          · rcases j with _ | b | q | s | xs | fs <;> simp <;> split <;>
              simp [List.length_take_le]
        · simp [hst]
  have herr : ∀ e, env.newsResp t = .error e → (finnhub_company_news t env).1 = [] := by
    intro e he
    unfold finnhub_company_news
    by_cases hk : env.finnhubKey = ""
    · simp [hk]
    · simp [hk, http_json, he]
  refine ⟨hlen, ?_, herr, ?_, ?_, ?_⟩
  · intro hk
    simp [finnhub_company_news, hk]
  · intro st body hr hst
    unfold finnhub_company_news
    by_cases hk : env.finnhubKey = ""
    · simp [hk]
    · simp [hk, http_json, hr, hst]
  · intro j hr hj
    unfold finnhub_company_news
    by_cases hk : env.finnhubKey = ""
    · simp [hk]
    · simp only [hk, if_false, http_json, hr, if_pos rfl]
      rcases j with _ | b | q | s | xs | fs
      · simp
      · simp
      · simp
      · simp
      · exact absurd rfl (hj xs)
      · simp
  · intro env2 t2 e2 hk he2
    rw [(by simp [finnhub_company_news, hk] : (finnhub_company_news t env).1 = [])]
    have h2 := herr
    unfold finnhub_company_news
    by_cases hk2 : env2.finnhubKey = ""
    · simp [hk2]
    · simp [hk2, http_json, he2]

/-- Witness for C4 at a concrete provider-error environment. -/
theorem c4_news_digest_bounded_witness :
    (finnhub_company_news "AAPL"
      { envBase with finnhubKey := "k",
                     newsResp := fun _ => .ok (403, some (.jobj [("error", .jstr "forbidden")])) }).1
      = [] := by
  exact (c4_news_digest_bounded
    { envBase with finnhubKey := "k",
                   newsResp := fun _ => .ok (403, some (.jobj [("error", .jstr "forbidden")])) }
    "AAPL").2.2.2.1 403 (some (.jobj [("error", .jstr "forbidden")])) rfl (by decide)

/-- C9 counterexample: with the news credential absent the collector writes
no log line at all, and a genuine empty 200 response also writes no log
line, so the two cases are NOT distinguishable in the log, contrary to the
claim; the return value is the same empty list in both. -/
theorem c9_counterexample :
    logsOf (finnhub_company_news "AAPL" envBase).2 = [] ∧
    logsOf (finnhub_company_news "AAPL" { envBase with finnhubKey := "k" }).2 = [] ∧
    (finnhub_company_news "AAPL" envBase).1 = [] ∧
    (finnhub_company_news "AAPL" { envBase with finnhubKey := "k" }).1 = [] :=
  ⟨rfl, rfl, rfl, rfl⟩

/-- C9 amended: without a credential the collector skips the provider call
entirely (no events) and returns the empty list, writing no log line; a
real empty provider result also writes no log line, so the two cases are
indistinguishable both by return value and in the log. -/
theorem c9_missing_credential_skips_call (env : Env) (t : String)
    (h : env.finnhubKey = "") :
    finnhub_company_news t env = ([], []) ∧
    (∀ env2 t2, env2.newsResp t2 = .ok (200, some (.jarr [])) →
      (finnhub_company_news t2 env2).1 = [] ∧
      logsOf (finnhub_company_news t2 env2).2 = []) := by
  refine ⟨by simp [finnhub_company_news, h], ?_⟩
  intro env2 t2 h2
  by_cases hk2 : env2.finnhubKey = ""
  · simp [finnhub_company_news, hk2, logsOf]
  · constructor <;> simp [finnhub_company_news, hk2, http_json, h2, pyFalsy, logsOf]

/-- Witness for the amended C9 at the concrete environments of the
counterexample. -/
theorem c9_missing_credential_skips_call_witness :
    finnhub_company_news "MSFT" envBase = ([], []) ∧
    (finnhub_company_news "MSFT" { envBase with finnhubKey := "k" }).1 = [] :=
  ⟨(c9_missing_credential_skips_call envBase "MSFT" rfl).1,
   ((c9_missing_credential_skips_call envBase "MSFT" rfl).2
      { envBase with finnhubKey := "k" } "MSFT" rfl).1⟩

lemma ctxNewsLoop_fst_congr (e1 e2 : Env) :
    ∀ ts : List String,
      (∀ t ∈ ts, (finnhub_company_news t e1).1 = (finnhub_company_news t e2).1) →
      (ctxNewsLoop e1 ts).1 = (ctxNewsLoop e2 ts).1 := by
  intro ts
  induction ts with
  | nil => intro _; rfl
  | cons t ts ih =>
    intro h
    have ht := h t (by simp)
    have hrest := ih (fun x hx => h x (by simp [hx]))
    simp only [ctxNewsLoop, ht, hrest]
    split <;> simp

lemma build_context_parts_fst_congr (e1 e2 : Env)
    (hd : (market_dashboard e1).1 = (market_dashboard e2).1)
    (hm : (m7_prices e1).1 = (m7_prices e2).1)
    (hn : ∀ t ∈ ctxNewsTickers,
      (finnhub_company_news t e1).1 = (finnhub_company_news t e2).1) :
    (build_context_parts e1).1 = (build_context_parts e2).1 := by
  simp only [build_context_parts]
  rw [ctxNewsLoop_fst_congr e1 e2 _ hn, hd, hm]

/-- C6: the Context Assembler is deterministic in the three snapshots it
consumes — two environments whose macro dashboard, equity basket, and
per-ticker news digests agree produce the identical context text (and the
text depends on nothing else: no other oracle or randomness enters). -/
theorem c6_context_assembler_deterministic (e1 e2 : Env)
    (hd : (market_dashboard e1).1 = (market_dashboard e2).1)
    (hm : (m7_prices e1).1 = (m7_prices e2).1)
    (hn : ∀ t ∈ ctxNewsTickers,
      (finnhub_company_news t e1).1 = (finnhub_company_news t e2).1) :
    (build_context_text e1).1 = (build_context_text e2).1 := by
  simp only [build_context_text]
  rw [build_context_parts_fst_congr e1 e2 hd hm hn]

/-- Witness for C6: two environments that differ in every CMS and
generative oracle but share the collector data produce the same text. -/
theorem c6_context_assembler_deterministic_witness :
    (build_context_text envBase).1 =
      (build_context_text
        { envBase with clientPresent := true, chatResp := .ok "body",
                       dupResp := .error "down", postResp := .error "down" }).1 :=
  c6_context_assembler_deterministic envBase
    { envBase with clientPresent := true, chatResp := .ok "body",
                   dupResp := .error "down", postResp := .error "down" }
    rfl rfl (fun _ _ => rfl)

/-- C8: whenever the context assembly succeeds, it contains one
`"- label: value"` line for every configured macro indicator and every
equity ticker, with an absent price rendered as the literal `"None"`
marker (never a placeholder zero, never omitted); the fallback dashboard
image likewise draws one `"label: value"` line per instrument. -/
theorem c8_absent_is_marker_not_omitted (env : Env) (parts : List String)
    (h : (build_context_parts env).1 = .ok parts) :
    (∀ p ∈ dashPairs, ("- " ++ p.1 ++ ": " ++ pyShowOpt (priceVal env p.2)) ∈ parts) ∧
    (∀ t ∈ m7Names, ("- " ++ t ++ ": " ++ pyShowOpt (priceVal env t)) ∈ parts) ∧
    pyShowOpt none = "None" ∧ pyShowOpt none ≠ "0" ∧ pyShowOpt none ≠ "0.0" ∧
    (∀ p ∈ dashPairs,
      (padTo 12 p.1 ++ ": " ++ pyShowOpt (priceVal env p.2)) ∈ dashboardImageLines env) ∧
    (∀ t ∈ m7Names,
      (padTo 5 t ++ ": " ++ pyShowOpt (priceVal env t)) ∈ dashboardImageLines env) := by
  have hdash : (market_dashboard env).1 = dashPairs.map (fun p => (p.1, priceVal env p.2)) :=
    fetchAll_fst env dashPairs
  have hm7 : (m7_prices env).1 = m7Names.map (fun t => (t, priceVal env t)) := by
    rw [m7_prices, fetchAll_fst]; simp
  rcases hnb : (ctxNewsLoop env ctxNewsTickers).1 with e | nb
  · simp only [build_context_parts, hnb] at h
    cases h
  · simp only [build_context_parts, hnb] at h
    have hparts : parts =
        ["【主要指標】"] ++ (market_dashboard env).1.map dashLine ++
          ["\n【マグニフィセントセブン】"] ++ (m7_prices env).1.map dashLine ++
          ["\n【社名ベースの話題銘柄ニュース】"] ++ nb := by
      cases h
      rfl
    refine ⟨?_, ?_, rfl, by decide, by decide, ?_, ?_⟩
    · intro p hp
      have hmem : ("- " ++ p.1 ++ ": " ++ pyShowOpt (priceVal env p.2)) ∈
          (market_dashboard env).1.map dashLine := by
        rw [hdash, List.map_map]
        exact List.mem_map_of_mem _ hp
      rw [hparts]
      simp only [List.mem_append]
      tauto
    · intro t ht
      have hmem : ("- " ++ t ++ ": " ++ pyShowOpt (priceVal env t)) ∈
          (m7_prices env).1.map dashLine := by
        rw [hm7, List.map_map]
        exact List.mem_map_of_mem _ ht
      rw [hparts]
      simp only [List.mem_append]
      tauto
    · intro p hp
      have hmem : (padTo 12 p.1 ++ ": " ++ pyShowOpt (priceVal env p.2)) ∈
          (market_dashboard env).1.map (fun q => padTo 12 q.1 ++ ": " ++ pyShowOpt q.2) := by
        rw [hdash, List.map_map]
        exact List.mem_map_of_mem _ hp
      simp only [dashboardImageLines, List.mem_append]
      tauto
    · intro t ht
      have hmem : (padTo 5 t ++ ": " ++ pyShowOpt (priceVal env t)) ∈
          (m7_prices env).1.map (fun q => padTo 5 q.1 ++ ": " ++ pyShowOpt q.2) := by
        rw [hm7, List.map_map]
        exact List.mem_map_of_mem _ ht
      simp only [dashboardImageLines, List.mem_append]
      tauto

/-- Witness for C8 at `envPartialFail`, whose VIX price is absent: the
failing instrument still yields its own line, with the `None` marker. -/
theorem c8_absent_is_marker_not_omitted_witness :
    ("- VIX: None") ∈ ((build_context_parts envPartialFail).1.toOption.getD []) ∧
    (padTo 12 "VIX" ++ ": None") ∈ dashboardImageLines envPartialFail := by
  have hok : (build_context_parts envPartialFail).1 =
      .ok ((build_context_parts envPartialFail).1.toOption.getD []) := rfl
  have h := c8_absent_is_marker_not_omitted envPartialFail
    ((build_context_parts envPartialFail).1.toOption.getD []) hok
  have hv : priceVal envPartialFail "^VIX" = none := rfl
  constructor
  · have := h.1 ("VIX", "^VIX") (by decide)
    rwa [hv] at this
  · have := h.2.2.2.2.2.1 ("VIX", "^VIX") (by decide)
    rwa [hv] at this

/-- A news item whose consumption by `build_context_text` does not raise:
a JSON object whose headline, when present, is a string. -/
def itemOkB (n : JValue) : Bool :=
  match n with
  | .jobj _ =>
    match jget n "headline" with
    | none => true
    | some (.jstr _) => true
    | some _ => false
  | _ => false

/-- All news items consumed in a run are well-formed. -/
def newsOkB (env : Env) : Bool :=
  ctxNewsTickers.all (fun t => ((finnhub_company_news t env).1).all itemOkB)

/-- The generative-text path is disabled, raised, or returned empty text. -/
def genFail (env : Env) : Prop :=
  env.clientPresent = false ∨ (∃ e, env.chatResp = .error e) ∨
  (∃ s, env.chatResp = .ok s ∧ pyStripStr s = "")

/-- The context text of a run (empty on the raising runs). -/
def ctxOf (env : Env) : String :=
  match (build_context_text env).1 with
  | .ok s => s
  | .error _ => ""

lemma exists_ok_of_isOk {ε α : Type} {x : Except ε α} (h : x.isOk = true) :
    ∃ a, x = .ok a := by
  cases x with
  | error e => simp [Except.isOk, Except.toBool] at h
  | ok a => exact ⟨a, rfl⟩

lemma newsLine_isOk (n : JValue) (h : itemOkB n = true) : (newsLine n).isOk = true := by
  rcases n with _ | b | q | s | xs | fs <;> simp [itemOkB] at h
  cases hh : jget (.jobj fs) "headline" with
  | none => simp [newsLine, hh, Except.isOk, Except.toBool]
  | some v =>
    rcases v with _ | b | q | s | ys | gs <;> simp [itemOkB, hh] at h <;>
      simp [newsLine, hh, Except.isOk, Except.toBool]

lemma newsLines_ok (ns : List JValue) (h : ns.all itemOkB = true) :
    ∃ ls, newsLines ns = .ok ls := by
  induction ns with
  | nil => exact ⟨[], rfl⟩
  | cons n rest ih =>
    rw [List.all_cons, Bool.and_eq_true] at h
    obtain ⟨s, hs⟩ := exists_ok_of_isOk (newsLine_isOk n h.1)
    obtain ⟨ls, hls⟩ := ih h.2
    exact ⟨s :: ls, by simp [newsLines, hs, hls]⟩

lemma ctxNewsLoop_ok (env : Env) (ts : List String)
    (h : ∀ t ∈ ts, ((finnhub_company_news t env).1).all itemOkB = true) :
    ∃ bs, (ctxNewsLoop env ts).1 = .ok bs := by
  induction ts with
  | nil => exact ⟨[], rfl⟩
  | cons t rest ih =>
    obtain ⟨bs, hbs⟩ := ih (fun x hx => h x (by simp [hx]))
    by_cases he : ((finnhub_company_news t env).1).isEmpty
    · exact ⟨bs, by simp [ctxNewsLoop, he, hbs]⟩
    · obtain ⟨ls, hls⟩ := newsLines_ok _ (h t (by simp))
      exact ⟨(("- " ++ t ++ ":") :: ls) ++ bs, by simp [ctxNewsLoop, he, hls, hbs]⟩

lemma build_context_text_ok (env : Env) (h : newsOkB env = true) :
    (build_context_text env).1 = .ok (ctxOf env) := by
  obtain ⟨bs, hbs⟩ := ctxNewsLoop_ok env ctxNewsTickers (by
    intro t ht
    exact List.all_eq_true.mp h t ht)
  simp only [ctxOf, build_context_text, build_context_parts, hbs]

lemma build_article_fst (env : Env) (h : newsOkB env = true) :
    (build_article env).1 =
      .ok (match (long_article_by_openai env).1 with
           | some s => if s ≠ "" then s else long_article_fallback env.fbDate (ctxOf env)
           | none => long_article_fallback env.fbDate (ctxOf env)) := by
  simp only [build_article, build_context_text_ok env h]

lemma all_takeWhile {p : Char → Bool} : ∀ l : List Char, (l.takeWhile p).all p = true := by
  intro l
  induction l with
  | nil => rfl
  | cons x xs ih =>
    by_cases hx : p x
    · simp [List.takeWhile_cons, hx, ih]
    · simp [List.takeWhile_cons, hx]

lemma commonPre_all {p : Char → Bool} :
    ∀ (a b : List Char), a.all p = true → (commonPre a b).all p = true := by
  intro a
  induction a with
  | nil => intro b _; cases b <;> rfl
  | cons x xs ih =>
    intro b h
    cases b with
    | nil => rfl
    | cons y ys =>
      rw [List.all_cons, Bool.and_eq_true] at h
      simp only [commonPre]
      split
      · simp [h.1, ih ys h.2]
      · rfl

lemma foldl_commonPre_all {p : Char → Bool} :
    ∀ (is : List (List Char)) (i : List Char), i.all p = true →
      (is.foldl commonPre i).all p = true := by
  intro is
  induction is with
  | nil => intro i h; exact h
  | cons j js ih =>
    intro i h
    exact ih (commonPre i j) (commonPre_all i j h)

lemma marginOf_all (ls : List (List Char)) : (marginOf ls).all isIndentChar = true := by
  unfold marginOf
  rcases hm : (ls.filter (fun l => !l.isEmpty)).map (fun l => l.takeWhile isIndentChar)
    with _ | ⟨i, is⟩
  · rw [hm]
    rfl
  · rw [hm]
    have hi : i ∈ (ls.filter (fun l => !l.isEmpty)).map (fun l => l.takeWhile isIndentChar) := by
      rw [hm]; exact List.mem_cons_self i is
    rcases List.mem_map.mp hi with ⟨l, _, rfl⟩
    exact foldl_commonPre_all is _ (all_takeWhile l)

lemma splitNL_ne_nil : ∀ l : List Char, splitNL l ≠ [] := by
  intro l
  cases l with
  | nil => simp [splitNL]
  | cons c cs =>
    simp only [splitNL]
    split
    · simp
    · split <;> simp

lemma mem_splitNL {c : Char} (hc : c ≠ '\n') :
    ∀ {l : List Char}, c ∈ l → ∃ ln ∈ splitNL l, c ∈ ln := by
  intro l
  induction l with
  | nil => intro h; cases h
  | cons d ds ih =>
    intro h
    by_cases hd : d = '\n'
    · subst hd
      have hmem : c ∈ ds := by
        rcases List.mem_cons.mp h with h1 | h2
        · exact absurd h1 hc
        · exact h2
      obtain ⟨ln, hln, hcl⟩ := ih hmem
      refine ⟨ln, ?_, hcl⟩
      simp [splitNL, hln]
    · rcases hr : splitNL ds with _ | ⟨l0, ls⟩
      · exact absurd hr (splitNL_ne_nil ds)
      · have hsplit : splitNL (d :: ds) = (d :: l0) :: ls := by
          simp [splitNL, hd, hr]
        rcases List.mem_cons.mp h with h1 | h2
        · exact ⟨d :: l0, by simp [hsplit], by simp [h1]⟩
        · obtain ⟨ln, hln, hcl⟩ := ih h2
          rw [hr] at hln
          rcases List.mem_cons.mp hln with h3 | h4
          · exact ⟨d :: l0, by simp [hsplit], by simp [h3 ▸ hcl]⟩
          · exact ⟨ln, by simp [hsplit, h4], hcl⟩

lemma mem_joinNL {c : Char} :
    ∀ {ls : List (List Char)} {ln}, ln ∈ ls → c ∈ ln → c ∈ joinNL ls := by
  intro ls
  induction ls with
  | nil => intro ln h; cases h
  | cons l rest ih =>
    intro ln hln hc
    cases rest with
    | nil =>
      have : ln = l := by simpa using hln
      simpa [joinNL, this] using hc
    | cons l2 ls2 =>
      simp only [joinNL]
      rcases List.mem_cons.mp hln with h1 | h2
      · exact List.mem_append.mpr (Or.inl (h1 ▸ hc))
      · exact List.mem_append.mpr (Or.inr (List.mem_cons.mpr (Or.inr (ih h2 hc))))

lemma mem_dedentLines {c : Char} (hc : isIndentChar c = false) :
    ∀ {ls : List (List Char)} {ln}, ln ∈ ls → c ∈ ln →
      ∃ ln2 ∈ dedentLines ls, c ∈ ln2 := by
  intro ls ln hln hcln
  have hnotall : ln.all isIndentChar = false := by
    by_contra hna
    have := List.all_eq_true.mp (eq_true_of_ne_false hna) c hcln
    rw [hc] at this
    cases this
  have hnormed : ln ∈ normLines ls := by
    have := List.mem_map_of_mem
      (fun l => if !l.isEmpty && l.all isIndentChar then ([] : List Char) else l) hln
    simpa [normLines, hnotall] using this
  unfold dedentLines
  by_cases hm : marginOf (normLines ls) = []
  · exact ⟨ln, by simp [hm, hnormed], hcln⟩
  · refine ⟨dropMargin (marginOf (normLines ls)) ln, ?_, ?_⟩
    · simp only [hm, if_false]
      exact List.mem_map_of_mem _ hnormed
    · unfold dropMargin
      split
      · next htake =>
        have hsplit : ln.take (marginOf (normLines ls)).length ++
            ln.drop (marginOf (normLines ls)).length = ln := List.take_append_drop _ _
        rcases List.mem_append.mp (hsplit ▸ hcln) with h1 | h2
        · exfalso
          have := List.all_eq_true.mp (htake ▸ marginOf_all (normLines ls)) c h1
          rw [hc] at this
          cases this
        · exact h2
      · exact hcln

lemma mem_dropWhile_of_neg {p : Char → Bool} {c : Char} :
    ∀ {l : List Char}, c ∈ l → p c = false → c ∈ l.dropWhile p := by
  intro l
  induction l with
  | nil => intro h _; cases h
  | cons d ds ih =>
    intro h hp
    by_cases hd : p d
    · rcases List.mem_cons.mp h with h1 | h2
      · rw [h1] at hp; rw [hp] at hd; cases hd
      · simpa [List.dropWhile_cons, hd] using ih h2 hp
    · simpa [List.dropWhile_cons, hd] using h

lemma pyStripL_ne_nil {c : Char} {l : List Char} (hc : c ∈ l)
    (hs : isPySpace c = false) : pyStripL l ≠ [] := by
  unfold pyStripL
  have h1 := mem_dropWhile_of_neg hc hs
  have h2 : c ∈ (l.dropWhile isPySpace).reverse := List.mem_reverse.mpr h1
  have h3 := mem_dropWhile_of_neg h2 hs
  have h4 : c ∈ ((l.dropWhile isPySpace).reverse.dropWhile isPySpace).reverse :=
    List.mem_reverse.mpr h3
  exact List.ne_nil_of_mem h4

set_option maxHeartbeats 2000000 in
/-- The fallback article text is never empty: the closing `。` of the fixed
template survives dedent and strip for every date and context block. -/
lemma long_article_fallback_ne_empty (d ctx : String) :
    long_article_fallback d ctx ≠ "" := by
  have h1 : '。' ∈ (fallbackTemplate d ctx).data := by
    have hmid : '。' ∈ tmplMid.data := by decide
    show '。' ∈ (tmplPre ++ d ++ tmplMid ++ ctx ++ tmplPost).data
    have : (tmplPre ++ d ++ tmplMid ++ ctx ++ tmplPost).data =
        tmplPre.data ++ d.data ++ tmplMid.data ++ ctx.data ++ tmplPost.data := by
      simp [String.data_append]
    rw [this]
    simp [hmid]
  obtain ⟨ln, hln, hcl⟩ := mem_splitNL (by decide) h1
  obtain ⟨ln2, hln2, hcl2⟩ := mem_dedentLines (by decide) hln hcl
  have h4 : '。' ∈ joinNL (dedentLines (splitNL (fallbackTemplate d ctx).data)) :=
    mem_joinNL hln2 hcl2
  have h6 : pyStripL (pyDedentStr (fallbackTemplate d ctx)).data ≠ [] :=
    pyStripL_ne_nil h4 (by decide)
  intro hEq
  exact h6 (congrArg String.data hEq)

/-- An environment whose news provider returns a 200 list payload holding a
bare number: the script's `n.get("headline","")` raises on it. -/
def envBadNews : Env :=
  { envBase with finnhubKey := "k",
                 newsResp := fun _ => .ok (200, some (.jarr [.jnum 5])) }

set_option maxRecDepth 10000 in
set_option maxHeartbeats 2000000 in
/-- C3 counterexample: (1) `build_article` does not always return text — on
a 200 news payload whose item is not an object, the context assembly raises
an `AttributeError` that escapes `build_article`; (2) the fallback output is
not identical across runs given an identical context block, because the
template embeds the run's date. -/
theorem c3_counterexample :
    (build_article envBadNews).1 = .error "AttributeError: object has no attribute get" ∧
    long_article_fallback "2025年10月11日" "【主要指標】\n- VIX: None" ≠
      long_article_fallback "2025年10月12日" "【主要指標】\n- VIX: None" :=
  ⟨rfl, by decide⟩

lemma openai_none_of_genFail (env : Env) (hg : genFail env) :
    (long_article_by_openai env).1 = none ∨ (long_article_by_openai env).1 = some "" := by
  by_cases hcp : env.clientPresent
  · rcases hg with hc | ⟨e, he⟩ | ⟨s, hs, hstrip⟩
    · rw [hc] at hcp; cases hcp
    · left; simp [long_article_by_openai, hcp, he]
    · right; simp [long_article_by_openai, hcp, hs, hstrip]
  · left
    simp [long_article_by_openai, hcp]

/-- C3 amended: whenever every consumed news item is a well-formed object
(the only case in which the assembler cannot raise), `build_article`
returns non-empty text; whenever the generative path is additionally
disabled, raises, or returns empty, the result is byte-identical to the
fallback template for the run's date with the assembled context block
spliced in verbatim — identical across runs that share the date and the
context block — and the fallback itself never fails (it is never empty). -/
theorem c3_article_composer_fallback (env : Env) (h : newsOkB env = true) :
    ∃ txt, (build_article env).1 = .ok txt ∧ txt ≠ "" ∧
      (genFail env →
        txt = long_article_fallback env.fbDate (ctxOf env) ∧
        (∀ env2, newsOkB env2 = true → genFail env2 → env2.fbDate = env.fbDate →
          ctxOf env2 = ctxOf env → (build_article env2).1 = .ok txt)) := by
  refine ⟨_, build_article_fst env h, ?_, ?_⟩
  · rcases ho : (long_article_by_openai env).1 with _ | s
    · simpa using long_article_fallback_ne_empty env.fbDate (ctxOf env)
    · by_cases hs : s = ""
      · simpa [hs] using long_article_fallback_ne_empty env.fbDate (ctxOf env)
      · simpa [hs] using hs
  · intro hg
    have hfb :
        (match (long_article_by_openai env).1 with
         | some s => if s ≠ "" then s else long_article_fallback env.fbDate (ctxOf env)
         | none => long_article_fallback env.fbDate (ctxOf env)) =
          long_article_fallback env.fbDate (ctxOf env) := by
      rcases openai_none_of_genFail env hg with ho | ho <;> rw [ho] <;> simp
    refine ⟨hfb, ?_⟩
    intro env2 h2 hg2 hdate hctx
    rw [build_article_fst env2 h2]
    have hfb2 :
        (match (long_article_by_openai env2).1 with
         | some s => if s ≠ "" then s else long_article_fallback env2.fbDate (ctxOf env2)
         | none => long_article_fallback env2.fbDate (ctxOf env2)) =
          long_article_fallback env2.fbDate (ctxOf env2) := by
      rcases openai_none_of_genFail env2 hg2 with ho | ho <;> rw [ho] <;> simp
    rw [hfb2, hdate, hctx, hfb]

/-- Witness for the amended C3: at `envBase` (no generative client, healthy
providers) the article is exactly the fallback for that run's date and
context, and it is non-empty. -/
theorem c3_article_composer_fallback_witness :
    newsOkB envBase = true ∧
    (build_article envBase).1 = .ok (long_article_fallback envBase.fbDate (ctxOf envBase)) ∧
    long_article_fallback envBase.fbDate (ctxOf envBase) ≠ "" := by
  obtain ⟨txt, h1, h2, h3⟩ := c3_article_composer_fallback envBase rfl
  obtain ⟨hfb, _⟩ := h3 (Or.inl rfl)
  exact ⟨rfl, hfb ▸ h1, hfb ▸ h2⟩

/-- When the Matplotlib render's `savefig` succeeds, `generate_feature_image`
returns a path in every case, and with no generative client it returns
exactly the fallback dashboard path. -/
lemma generate_feature_image_ok (env : Env) (h : env.renderResult = .ok ()) :
    (∃ p, (generate_feature_image env).1 = .ok p) ∧
    (env.clientPresent = false →
      (generate_feature_image env).1 =
        .ok (pathJoin env.cwd ("feature_" ++ env.imgStampB ++ ".png"))) := by
  by_cases hc : env.clientPresent
  · refine ⟨?_, fun hfalse => by rw [hfalse] at hc; cases hc⟩
    rcases hi : env.imageResp with e | o
    · exact ⟨pathJoin env.cwd ("feature_" ++ env.imgStampB ++ ".png"),
        by simp [generate_feature_image, hc, hi, h]⟩
    · rcases o with _ | b
      · exact ⟨pathJoin env.cwd ("feature_" ++ env.imgStampB ++ ".png"),
          by simp [generate_feature_image, hc, hi, h]⟩
      · rcases hw : env.imgWrite with e2 | u
        · exact ⟨pathJoin env.cwd ("feature_" ++ env.imgStampB ++ ".png"),
            by simp [generate_feature_image, hc, hi, hw, h]⟩
        · exact ⟨pathJoin env.cwd ("feature_" ++ env.imgStampA ++ ".png"),
            by simp [generate_feature_image, hc, hi, hw]⟩
  · have hfb : (generate_feature_image env).1 =
        .ok (pathJoin env.cwd ("feature_" ++ env.imgStampB ++ ".png")) := by
      simp [generate_feature_image, hc, h]
    exact ⟨⟨_, hfb⟩, fun _ => hfb⟩

/-- An environment whose Matplotlib render raises (e.g. `savefig` fails)
while the generative client is absent. -/
def envRenderFail : Env :=
  { envBase with renderResult := .error "RuntimeError: savefig failed" }

/-- C1 counterexample: when the fallback dashboard render itself raises,
`generate_feature_image` does not return null — the exception escapes it,
and the exception aborts the whole run instead of the image step being
skipped downstream. -/
theorem c1_counterexample :
    (generate_feature_image envRenderFail).1 = .error "RuntimeError: savefig failed" ∧
    (main envRenderFail).1 = .error "RuntimeError: savefig failed" :=
  ⟨rfl, rfl⟩

/-- C1 amended: on any failure of the generative-image path the producer
falls back to the Matplotlib dashboard render and returns its file path —
it never returns null — but the fallback's success is conditional on the
render not raising: if the render raises, the exception propagates out of
`generate_feature_image` (and aborts the run) instead of being logged and
returning null. -/
theorem c1_feature_image_fallback (env : Env) (h : env.renderResult = .ok ()) :
    (∃ p, (generate_feature_image env).1 = .ok p) ∧
    (env.clientPresent = false →
      (generate_feature_image env).1 =
        .ok (pathJoin env.cwd ("feature_" ++ env.imgStampB ++ ".png"))) ∧
    (∀ env2 e, env2.renderResult = .error e → env2.clientPresent = false →
      (generate_feature_image env2).1 = .error e ∧
      (∀ p2, (generate_feature_image env2).1 ≠ .ok p2)) := by
  obtain ⟨hex, hfb⟩ := generate_feature_image_ok env h
  refine ⟨hex, hfb, ?_⟩
  intro env2 e h2 hc2
  have herr : (generate_feature_image env2).1 = .error e := by
    simp [generate_feature_image, hc2, h2]
  exact ⟨herr, fun p2 hp2 => by rw [herr] at hp2; cases hp2⟩

/-- Witness for the amended C1 at `envBase`: the render succeeds and the
returned path is the fallback dashboard file. -/
theorem c1_feature_image_fallback_witness :
    (generate_feature_image envBase).1 =
      .ok (pathJoin envBase.cwd ("feature_" ++ envBase.imgStampB ++ ".png")) :=
  (c1_feature_image_fallback envBase rfl).2.1 rfl

/-- C7: if any required CMS credential is empty, the run logs the missing
configuration and returns immediately: the whole trace is the two log
lines, and in particular no network request of any kind is issued. -/
theorem c7_missing_credentials_abort (env : Env)
    (h : wpBase env = "" ∨ env.wpUsername = "" ∨ env.wpAppPassword = "") :
    main env = (.ok (), [Ev.log startMsg, Ev.log missMsg]) ∧
    (main env).2.filter isNetEv = [] := by
  have hm : main env = (.ok (), [Ev.log startMsg, Ev.log missMsg]) := by
    unfold main
    rw [if_pos h]
    rfl
  exact ⟨hm, by rw [hm]; rfl⟩

/-- Witness for C7: a concrete environment with an empty CMS username. -/
theorem c7_missing_credentials_abort_witness :
    main { envBase with wpUsername := "" } = (.ok (), [Ev.log startMsg, Ev.log missMsg]) :=
  (c7_missing_credentials_abort { envBase with wpUsername := "" } (Or.inr (Or.inl rfl))).1

/-- C2: when the duplicate-check query reports a non-empty result, `main`
logs and returns: the whole trace is the start log, the one duplicate-check
GET, and the abort log — no write call (no POST of any kind, no tag
search-or-create, no media upload, no post creation, no file write). -/
theorem c2_duplicate_slug_no_writes (env : Env) (js : List JValue)
    (hb : wpBase env ≠ "") (hu : env.wpUsername ≠ "") (hp : env.wpAppPassword ≠ "")
    (hd : env.dupResp = .ok (200, some (.jarr js))) (hne : js ≠ []) :
    main env = (.ok (), [Ev.log startMsg, Ev.get (wpPostsUrl env), Ev.log dupMsg]) ∧
    (∀ u, Ev.post u ∉ (main env).2) ∧
    (∀ p, Ev.fwrite p ∉ (main env).2) ∧
    logsOf (main env).2 = [startMsg, dupMsg] := by
  have hje : js.isEmpty = false := by
    cases js with
    | nil => exact absurd rfl hne
    | cons a as => rfl
  have hpe : post_exists (slugOf env) env = (true, [Ev.get (wpPostsUrl env)]) := by
    unfold post_exists
    rw [hd]
    simp [hje]
  have hm : main env = (.ok (), [Ev.log startMsg, Ev.get (wpPostsUrl env), Ev.log dupMsg]) := by
    unfold main
    rw [if_neg (by simp [hb, hu, hp]), hpe]
    rfl
  refine ⟨hm, ?_, ?_, ?_⟩
  · intro u
    rw [hm]
    simp
  · intro p
    rw [hm]
    simp
  · rw [hm]
    rfl

/-- Witness for C2 at a concrete environment whose CMS already holds a
post with the slug. -/
theorem c2_duplicate_slug_no_writes_witness :
    main { envBase with dupResp := .ok (200, some (.jarr [.jobj [("id", .jnum 5)]])) } =
      (.ok (), [Ev.log startMsg,
        Ev.get (wpPostsUrl { envBase with
          dupResp := .ok (200, some (.jarr [.jobj [("id", .jnum 5)]])) }),
        Ev.log dupMsg]) :=
  (c2_duplicate_slug_no_writes _ [.jobj [("id", .jnum 5)]]
    (by decide) (by decide) (by decide) rfl (by simp)).1

lemma post_to_wp_emits (env : Env) : Ev.post (wpPostsUrl env) ∈ (post_to_wp env).2 := by
  unfold post_to_wp
  rcases env.postResp with e | ⟨st, body⟩
  · simp
  · by_cases hst : st = 200 ∨ st = 201
    · rcases body with _ | j
      · simp [hst]
      · rcases j with _ | b | q | s | xs | fs
        · simp [hst]
        · simp [hst]
        · simp [hst]
        · simp [hst]
        · simp [hst]
        · simp only [hst, if_true]
          split
          · simp
          · rcases hg : jget (.jobj fs) "guid" with _ | g
            · simp [hg]
            · rcases g with _ | b2 | q2 | s2 | xs2 | fs2 <;> simp [hg]
    · simp [hst]

/-- C10: any failure of the duplicate check — transport exception, non-200
status, unparsable body, or a non-list payload — makes `post_exists` return
`False`, and the run then proceeds all the way to issuing the post-creation
POST exactly as if no duplicate existed: the sole idempotency guard fails
open. -/
theorem c10_duplicate_check_fails_open (env : Env)
    (hb : wpBase env ≠ "") (hu : env.wpUsername ≠ "") (hp : env.wpAppPassword ≠ "")
    (hn : newsOkB env = true) (hr : env.renderResult = .ok ())
    (hfail : (∃ e, env.dupResp = .error e) ∨
             (∃ st body, env.dupResp = .ok (st, body) ∧ st ≠ 200) ∨
             env.dupResp = .ok (200, none) ∨
             (∃ j, env.dupResp = .ok (200, some j) ∧ ∀ xs, j ≠ .jarr xs)) :
    (post_exists (slugOf env) env).1 = false ∧
    Ev.post (wpPostsUrl env) ∈ (main env).2 := by
  have hdup : (post_exists (slugOf env) env).1 = false := by
    rcases hfail with ⟨e, he⟩ | ⟨st, body, hsb, hst⟩ | h200 | ⟨j, hj, hnotarr⟩
    · simp [post_exists, he]
    · simp [post_exists, hsb, hst]
    · simp [post_exists, h200]
    · rcases j with _ | b | q | s | xs | fs
      · simp [post_exists, hj]
      · simp [post_exists, hj]
      · simp [post_exists, hj]
      · simp [post_exists, hj]
      · exact absurd rfl (hnotarr xs)
      · simp [post_exists, hj]
  refine ⟨hdup, ?_⟩
  have hpair : post_exists (slugOf env) env = (false, (post_exists (slugOf env) env).2) := by
    rw [← hdup]
  obtain ⟨txt, hart⟩ :
      ∃ txt, (build_article env).1 = .ok txt := ⟨_, build_article_fst env hn⟩
  have hartPair : build_article env = (.ok txt, (build_article env).2) := by
    rw [← hart]
  obtain ⟨⟨p, himg⟩, _⟩ := generate_feature_image_ok env hr
  have himgPair : generate_feature_image env = (.ok p, (generate_feature_image env).2) := by
    rw [← himg]
  have hpost := post_to_wp_emits env
  unfold main
  rw [if_neg (by simp [hb, hu, hp]), hpair, hartPair, himgPair]
  simp only [Bool.false_eq_true, if_false, List.mem_append]
  tauto

/-- Witness for C10: a concrete environment whose duplicate check times
out; the creation POST is still issued. -/
theorem c10_duplicate_check_fails_open_witness :
    (post_exists (slugOf { envBase with dupResp := .error "ReadTimeout" })
        { envBase with dupResp := .error "ReadTimeout" }).1 = false ∧
    Ev.post (wpPostsUrl { envBase with dupResp := .error "ReadTimeout" }) ∈
      (main { envBase with dupResp := .error "ReadTimeout" }).2 :=
  c10_duplicate_check_fails_open { envBase with dupResp := .error "ReadTimeout" }
    (by decide) (by decide) (by decide) rfl rfl (Or.inl ⟨"ReadTimeout", rfl⟩)

end AutoBlogPoster
